import Mathlib

/-!
# Verification of `invis.py` (runtime contract enforcement)

A shallow embedding of the invis library (`src/invis.py`): a Python runtime
type-checking framework built from descriptors (`Descriptor.__set__`), a
validator family (`Typed.check`, the `Function` class, `Positive`,
the `NaturalNum` mixin), a function-contract decorator (`inv`), and a
record-construction pipeline (`Base.__init_subclass__`).

Python values are modelled by the inductive `Val`; Python exceptions by
`PyErr` (Python's `AssertionError` from `assert` statements, and the
`TypeError`s the library raises explicitly or that arise from unorderable
comparisons).  Collections are modelled by their length only: the library
never inspects elements, only truthiness and the runtime type.  Python
floats appear in this development only at exact small values, so the float
payload is modelled by `Rat`.
-/

/-- Python runtime type tags relevant to invis.  `typeT` is the metaclass
`type` (the runtime type of `list`, `int`, ... themselves); `functionT`
covers user-defined functions / lambdas / bound methods. -/
inductive PyType where
  | bytesT | bytearrayT | complexT | dictT | floatT | intT
  | listT | setT | strT | tupleT
  | noneT | boolT | typeT | functionT | objectT
  | userT (cls : String)
  deriving DecidableEq, Repr

/-- `_builtins = {bytes, bytearray, complex, dict, float, int, list, set, str, tuple}`
(invis.py line 112), as runtime type tags. -/
def primitiveTypes : List PyType :=
  [.bytesT, .bytearrayT, .complexT, .dictT, .floatT, .intT,
   .listT, .setT, .strT, .tupleT]

/-- Python values.  Collections carry only their length (the library only
ever asks for truthiness and `type(value)`).  `vBuiltinType t` is the
constructor object of the builtin type `t` (the value `list`, `int`, ...);
`vFunc` is a user-defined callable. -/
inductive Val where
  | vNone
  | vBool (b : Bool)
  | vInt (n : Int)
  | vFloat (q : Rat)
  | vStr (s : String)
  | vBytes (len : Nat)
  | vBytearray (len : Nat)
  | vComplex (re im : Rat)
  | vList (len : Nat)
  | vSet (len : Nat)
  | vDict (len : Nat)
  | vTuple (len : Nat)
  | vBuiltinType (t : PyType)
  | vFunc (name : String)
  | vUserInst (cls : String)
  deriving DecidableEq, Repr

/-- `type(value)`. -/
def typeOf : Val → PyType
  | .vNone => .noneT
  | .vBool _ => .boolT
  | .vInt _ => .intT
  | .vFloat _ => .floatT
  | .vStr _ => .strT
  | .vBytes _ => .bytesT
  | .vBytearray _ => .bytearrayT
  | .vComplex _ _ => .complexT
  | .vList _ => .listT
  | .vSet _ => .setT
  | .vDict _ => .dictT
  | .vTuple _ => .tupleT
  | .vBuiltinType _ => .typeT
  | .vFunc _ => .functionT
  | .vUserInst cls => .userT cls

/-- Python truthiness (`if value:`): `None`/`False`/zero/empty are falsy,
type objects, functions and plain object instances are truthy. -/
def truthy : Val → Bool
  | .vNone => false
  | .vBool b => b
  | .vInt n => n != 0
  | .vFloat q => q != 0
  | .vStr s => s != ""
  | .vBytes len => len != 0
  | .vBytearray len => len != 0
  | .vComplex re im => !(re == 0 && im == 0)
  | .vList len => len != 0
  | .vSet len => len != 0
  | .vDict len => len != 0
  | .vTuple len => len != 0
  | .vBuiltinType _ => true
  | .vFunc _ => true
  | .vUserInst _ => true

/-- `callable(value)`: type constructors and functions are callable;
instances of the primitive types are not. -/
def pyCallable : Val → Bool
  | .vBuiltinType _ => true
  | .vFunc _ => true
  | _ => false

/-- `value in _builtins`: set membership by equality, so it holds exactly
for the ten primitive constructor objects themselves. -/
def isBuiltinCtor : Val → Bool
  | .vBuiltinType t => decide (t ∈ primitiveTypes)
  | _ => false

/-- `isinstance(value, t)`.  Everything is an instance of `object`, and
`bool` is a subclass of `int`. -/
def pyIsinstance (v : Val) (t : PyType) : Bool :=
  t == .objectT || typeOf v == t || (t == .intT && typeOf v == .boolT)

/-- Python exceptions raised by the library: `AssertionError` (from
`assert`) and `TypeError` (raised explicitly, or by an unorderable
comparison).  Message payloads (`f"...{value}..."`) are elided to the
constant message of the raise site. -/
inductive PyErr where
  | assertionError (msg : String)
  | typeError (msg : String)
  deriving DecidableEq, Repr

deriving instance DecidableEq for Except

def msgNotCallable : String := "Expected: function got: non-callable value"
def msgBuiltinCtor : String := "Expected: function got: builtin constructor"
def msgEmptyBuiltin : String := "Expected: function got: empty builtin"
def msgTypeExpected : String := "Expected: declared type got: other type"
def msgPositive : String := "value must be > 0"
def msgUnorderable : String := "unorderable comparison with 0"
def msgMixinIsinstance : String := "Expected value to be of the mixin base type"
def msgFallbackIsinstance : String := "Expected value to be of the annotated type"
def msgParamsKey : String := "params must be one of the dataclass keys"
def msgParamsBool : String := "value must be a Boolean"

/-- `Descriptor.check` (invis.py lines 33-35): the root of every
`super().check(value)` chain; always passes. -/
def Descriptor_check (_ : Val) : Except PyErr Unit := .ok ()

/-- The `Function` branch of `Typed.check` (invis.py lines 43-57):
truthy values must be callable and must not be one of the primitive
constructor objects; falsy values of a primitive type are rejected
explicitly, other falsy values pass. -/
def Function_branch (v : Val) : Except PyErr Unit :=
  if truthy v then
    if !isBuiltinCtor v then
      if pyCallable v then .ok ()
      else .error (.assertionError msgNotCallable)
    else .error (.typeError msgBuiltinCtor)
  else
    if typeOf v ∈ primitiveTypes then .error (.typeError msgEmptyBuiltin)
    else .ok ()

/-- `Typed.check` (invis.py lines 41-63) for a `Typed` subclass whose
`__qualname__` is `qualname` and whose `type` attribute is `ty`; ends with
`super().check(value)` (= `Descriptor.check`). -/
def Typed_check (qualname : String) (ty : PyType) (v : Val) : Except PyErr Unit :=
  match (if qualname == "Function" then Function_branch v
         else if pyIsinstance v ty then .ok ()
         else .error (.assertionError msgTypeExpected)) with
  | .ok _ => Descriptor_check v
  | .error e => .error e

/-- `Function.check` = `Typed.check` with `__qualname__ = "Function"` and
`type = object` (invis.py lines 68-70). -/
def Function_check (v : Val) : Except PyErr Unit :=
  Typed_check "Function" .objectT v

/-- `value > 0` in Python: defined for int, bool (True = 1) and float;
raises `TypeError` for str, bytes, complex, collections, None, etc. -/
def pyGtZero : Val → Except PyErr Bool
  | .vInt n => .ok (decide (0 < n))
  | .vBool b => .ok b
  | .vFloat q => .ok (decide (0 < q))
  | _ => .error (.typeError msgUnorderable)

/-- `Positive.check` (invis.py lines 98-102): `assert value > 0`, then
`super().check(value)` (= `Descriptor.check`). -/
def Positive_check (v : Val) : Except PyErr Unit :=
  match pyGtZero v with
  | .error e => .error e
  | .ok true => Descriptor_check v
  | .ok false => .error (.assertionError msgPositive)

/-- The validator classes of the module, as bound to record fields.
`NaturalNum` (invis.py lines 105-106) is `class NaturalNum(int, Positive)`:
its `check` resolves through the MRO `NaturalNum → int → Positive →
Descriptor`; `int` contributes no `check`, so the bound check is exactly
`Positive.check` (the `int` base is consulted only by the `inv` wrapper's
mixin branch, not by the descriptor).  `derivedNoop` is the no-op
`check` that `Base.__init_subclass__` installs on every finalized subclass
(invis.py lines 249-253). -/
inductive Validator where
  | typed (qualname : String) (ty : PyType)
  | functionV
  | positive
  | naturalNum
  | derivedNoop
  deriving DecidableEq, Repr

/-- `check` of each validator class, following the source MRO. -/
def Validator.check : Validator → Val → Except PyErr Unit
  | .typed q t, v => Typed_check q t v
  | .functionV, v => Typed_check "Function" .objectT v
  | .positive, v => Positive_check v
  | .naturalNum, v => Positive_check v
  | .derivedNoop, _ => .ok ()

/-! ## Record instances and `Descriptor.__set__`

A record instance is its `__dict__`: a partial map from field name to the
currently stored value.  `Descriptor.__set__` (invis.py lines 26-28) runs
`self.check(value)` and only then executes
`instance.__dict__[self.name] = value`; on an exception the dictionary is
left untouched.  Every attribute assignment to a declared field — from the
dataclass-generated `__init__`, from a decorated method body, or from a
plain `r.f = v` mutation — dispatches to this method. -/

/-- A record instance's `__dict__`. -/
def Instance : Type := String → Option Val

def emptyInstance : Instance := fun _ => none

/-- `instance.__dict__[name] = value`. -/
def updateInst (inst : Instance) (name : String) (value : Val) : Instance :=
  fun m => if m = name then some value else inst m

/-- `Descriptor.__set__(self, instance, value)` (invis.py lines 26-28):
returns the raised exception (if any) together with the instance state
after the call — unchanged when `check` raises. -/
def Descriptor_set (chk : Val → Except PyErr Unit) (name : String)
    (inst : Instance) (value : Val) : Option PyErr × Instance :=
  match chk value with
  | .ok _ => (none, updateInst inst name value)
  | .error e => (some e, inst)

/-- The declared fields of a record type: field name ↦ the validator class
bound to it by `_types`/`setattr` in `Base.__init_subclass__` (invis.py
lines 236-239).  A Python class holds at most one descriptor per name. -/
def FieldSpec : Type := String → Option Validator

/-- One observable mutation of a record instance that returns normally.
Assignments to a declared field go through that field's descriptor
(`Descriptor.__set__`) and must not raise; assignments to undeclared
attribute names bypass the descriptor protocol and write the dictionary
directly.  Construction and decorated method calls factor into sequences
of such steps (their bodies mutate fields only through `__set__`). -/
inductive FieldStep (spec : FieldSpec) : Instance → Instance → Prop where
  | checked (name : String) (va : Validator) (v : Val) (i j : Instance) :
      spec name = some va →
      Descriptor_set (Validator.check va) name i v = (none, j) →
      FieldStep spec i j
  | plain (name : String) (v : Val) (i : Instance) :
      spec name = none →
      FieldStep spec i (updateInst i name v)

/-- Instance states reachable from a freshly created (empty) instance by
operations that all return normally. -/
def ReachableInst (spec : FieldSpec) (i : Instance) : Prop :=
  Relation.ReflTransGen (FieldStep spec) emptyInstance i

/-! ## The `inv` function-contract decorator

`inv(func)` (invis.py lines 115-158) wraps `func`; at call time the wrapper
binds the arguments and, for each annotated parameter, runs the resolution
and check of lines 132-155.  The only mutable state this touches is the
annotation class itself: for a mixin such as `NaturalNum` the wrapper may
set and delete the class's `type` attribute.  The state is modelled by a
single `Bool`: whether `NaturalNum` currently has a `type` attribute
(`false` in a freshly loaded module). -/

/-- A parameter annotation, as the wrapper distinguishes them:
* `builtin t` — a raw builtin type (`int`, `str`, ...): it is in
  `_builtins`, so the mixin branch is skipped, and it has no `check`
  method, so the `AttributeError` fallback `assert isinstance(val, ann)`
  runs (lines 152-155);
* `validatorCls va` — a class of the module exposing a `type` attribute
  and a `check` method (`Function`, `Typed` subclasses, finalized `Base`
  subclasses, which inherit `Typed.type = None`): `hasattr(ann, "type")`
  holds, so the wrapper goes straight to `ann.check(val)`;
* `mixinNat` — the `NaturalNum` mixin: no static `type` attribute, so the
  branch of lines 132-149 runs when the attribute is currently unset. -/
inductive Ann where
  | builtin (t : PyType)
  | validatorCls (va : Validator)
  | mixinNat
  deriving DecidableEq, Repr

/-- The per-parameter body of the wrapper loop (invis.py lines 127-155),
given the current mixin state `st` (= `hasattr(NaturalNum, "type")`).
In the mixin branch the code sets `NaturalNum.type = int`, runs
`assert isinstance(val, int)`, and only on success reaches the
`delattr` (line 149); a failing assert leaves the attribute set. -/
def checkParam (st : Bool) (a : Ann) (v : Val) : Except PyErr Unit × Bool :=
  match a with
  | .builtin t =>
      (if pyIsinstance v t then .ok ()
       else .error (.assertionError msgFallbackIsinstance), st)
  | .validatorCls va => (va.check v, st)
  | .mixinNat =>
      if st then (Validator.check .naturalNum v, st)
      else if pyIsinstance v .intT then (Validator.check .naturalNum v, false)
      else (.error (.assertionError msgMixinIsinstance), true)

/-- The wrapper's loop over the bound arguments (invis.py lines 126-155):
a parameter with no annotation (`name not in ann`) is skipped; the first
raised exception aborts the loop. -/
def checkArgs (st : Bool) : List (Option Ann × Val) → Except PyErr Unit × Bool
  | [] => (.ok (), st)
  | (none, _) :: rest => checkArgs st rest
  | (some a, v) :: rest =>
      match checkParam st a v with
      | (.ok _, st1) => checkArgs st1 rest
      | (.error e, st1) => (.error e, st1)

/-- The full wrapper (invis.py lines 124-156): check every annotated
argument, then `return func(*args, **kwargs)` with the original arguments.
The wrapped body is a function of the argument values; if any check
raises, the body is never consulted. -/
def inv_wrapper (st : Bool) (args : List (Option Ann × Val))
    (f : List Val → Val) : Except PyErr Val × Bool :=
  match checkArgs st args with
  | (.ok _, st1) => (.ok (f (args.map Prod.snd)), st1)
  | (.error e, st1) => (.error e, st1)

/-! ## Dataclass-parameter validation (`Base.__init_subclass__`, lines 214-231) -/

/-- A value of an explicit `params` mapping: a Python bool or something
else (string, int, ...). -/
inductive ParamVal where
  | boolean (b : Bool)
  | strVal (s : String)
  | intVal (n : Int)
  | other
  deriving DecidableEq, Repr

def ParamVal.isBool : ParamVal → Bool
  | .boolean _ => true
  | _ => false

/-- The keys of the default dataclass parameter dict (invis.py lines
220-227). -/
def defaultKeys : List String :=
  ["init", "repr", "eq", "order", "unsafe_hash", "frozen"]

/-- The validation loop of invis.py lines 228-230: for each entry, first
`assert key in args`, then `assert isinstance(value, bool)`. -/
def validateParams : List (String × ParamVal) → Except PyErr Unit
  | [] => .ok ()
  | (k, v) :: rest =>
      if k ∈ defaultKeys then
        if v.isBool then validateParams rest
        else .error (.assertionError msgParamsBool)
      else .error (.assertionError msgParamsKey)

/-- The explicit-`params` path of `Base.__init_subclass__` (lines
216-231): the params dict is validated, and only if every entry passes is
`dataclass(cls, **params)` applied and the class finalized. -/
def finalizeWithParams (ps : List (String × ParamVal)) : Except PyErr String :=
  match validateParams ps with
  | .ok _ => .ok "finalized"
  | .error e => .error e

/-! ## Field-slot bookkeeping of `Base.__init_subclass__` (lines 190-255)

For claim C9 we model the `__dataclass_fields__` bookkeeping for
single-inheritance chains rooted at `Invis` (the claim's scenario: an
interface subclassed by unrelated concrete siblings).  Each class records
its MRO chain (nearest-first, restricted to the classes that can carry
`__dataclass_fields__`), its own annotations and the
`__dataclass_fields__` entry of its own `__dict__` (`none` once deleted).
`del cls.__dataclass_fields__` touches only the class's own dict;
`getattr` walks the MRO. -/

structure ClsInfo where
  mro : List String
  own : List String
  dc : Option (List String)
  deriving DecidableEq, Repr

def Registry : Type := List (String × ClsInfo)

def lookupCls (reg : Registry) (n : String) : Option ClsInfo :=
  match reg with
  | [] => none
  | (m, info) :: rest => if n = m then some info else lookupCls rest n

/-- `del base.__dataclass_fields__` on the class's own dict (a second
`del` on an already-deleted attribute raises `AttributeError`, which the
source swallows — both outcomes leave `dc = none`). -/
def delOwnDC (reg : Registry) (n : String) : Registry :=
  reg.map (fun p => if p.1 = n then (p.1, { p.2 with dc := none }) else p)

/-- `getattr(b, "__dataclass_fields__", None)`: the first class along
`b`'s MRO whose own dict still holds the attribute. -/
def getattrDC (reg : Registry) : List String → Option (List String)
  | [] => none
  | c :: rest =>
      match lookupCls reg c with
      | some info =>
          match info.dc with
          | some fs => some fs
          | none => getattrDC reg rest
      | none => getattrDC reg rest

/-- dataclass field merging: `fields[f.name] = f` keeps the first
position and lets later entries override, so on names it is
append-without-duplicates. -/
def mergeFields (acc fs : List String) : List String :=
  acc ++ fs.filter (fun f => !acc.contains f)

/-- The field collection of `dataclasses.dataclass`: for every base in
reversed MRO (excluding the class itself), merge its
`__dataclass_fields__` found by `getattr`; the class's own annotations
are appended last. -/
def collectFields (reg : Registry) (ancestors : List String) : List String :=
  ancestors.reverse.foldl
    (fun acc b =>
      match lookupCls reg b with
      | some info =>
          match getattrDC reg info.mro with
          | some fs => mergeFields acc fs
          | none => acc
      | none => acc)
    []

/-- Defining `class name(parent): own-annotations` under
`Base.__init_subclass__` with a single base that is a registered derived
class (invis.py lines 199-211 followed by `dataclass(cls)`):
first the deletion block removes the direct base's own
`__dataclass_fields__` (with a single base, both the `del bases[index]`
and the `del bases[index - 1]` fallback hit the same class, and a second
failure is swallowed by the outer `except AttributeError: pass`); then
`dataclass` collects the surviving inherited fields and appends the
class's own, and stores the result on the new class. -/
def defineSubclass (reg : Registry) (name parent : String)
    (own : List String) : Registry :=
  let reg1 := delOwnDC reg parent
  match lookupCls reg1 parent with
  | none => reg
  | some pinfo =>
      let inherited := collectFields reg1 pinfo.mro
      let fields := mergeFields inherited own
      (name, { mro := name :: pinfo.mro, own := own, dc := some fields }) :: reg1

/-- The registry right after `import invis`: `Invis` is finalized with no
fields (`dataclass(Invis)` stores an empty `__dataclass_fields__`);
`Base`, `Typed` and `Descriptor` never carry `__dataclass_fields__` and
are elided from the chain. -/
def initReg : Registry :=
  [("Invis", { mro := ["Invis"], own := [], dc := some [] })]

/-- The claim-C9 scenario: an interface-only class `I` under `Invis`,
then two unrelated concrete siblings `A` and `B` under `I` with their own
field lists. -/
def siblingScenario (fa fb : List String) : Registry :=
  defineSubclass
    (defineSubclass (defineSubclass initReg "I" "Invis" []) "A" "I" fa)
    "B" "I" fb

/-! ## Helper lemmas -/

/-- A `Descriptor.__set__` call that did not raise ran its check
successfully and stored exactly the assigned value. -/
theorem descriptor_set_none_elim (chk : Val → Except PyErr Unit) (n : String)
    (i j : Instance) (v : Val) (h : Descriptor_set chk n i v = (none, j)) :
    chk v = .ok () ∧ j = updateInst i n v := by
  unfold Descriptor_set at h
  cases hc : chk v with
  | ok u =>
      cases u
      rw [hc] at h
      simp only [Prod.mk.injEq] at h
      exact ⟨rfl, h.2.symm⟩
  | error e =>
      rw [hc] at h
      simp at h

/-- The params-validation loop succeeds iff every entry has a recognized
key and a boolean value. -/
theorem validateParams_ok_iff (ps : List (String × ParamVal)) :
    validateParams ps = .ok () ↔
      ∀ kv ∈ ps, kv.1 ∈ defaultKeys ∧ kv.2.isBool = true := by
  induction ps with
  | nil => simp [validateParams]
  | cons kv rest ih =>
      obtain ⟨k, v⟩ := kv
      by_cases hk : k ∈ defaultKeys
      · by_cases hb : v.isBool = true
        · simp [validateParams, hk, hb, ih]
        · simp [validateParams, hk, hb]
      · simp [validateParams, hk]

/-- Merging dataclass fields into an empty accumulator keeps exactly the
incoming fields. -/
theorem mergeFields_nil (xs : List String) : mergeFields [] xs = xs := by
  simp [mergeFields]

/-! ## Claim theorems -/

/-- C1: for every record instance and every declared field, at every
observable point reached from a fresh instance by operations that all
return normally (each mutation of a declared field going through
`Descriptor.__set__`), the value currently stored for the field satisfies
the field's bound validator's check. -/
theorem field_values_satisfy_bound_validator (spec : FieldSpec) (i : Instance)
    (h : ReachableInst spec i) :
    ∀ name va v, spec name = some va → i name = some v →
      Validator.check va v = .ok () := by
  unfold ReachableInst at h
  induction h with
  | refl =>
      intro name va v _ hv
      simp [emptyInstance] at hv
  | tail _ hstep ih =>
      intro name va v hf hv
      cases hstep with
      | checked n va0 v0 bb cc hspec hset =>
          obtain ⟨hchk, hj⟩ := descriptor_set_none_elim _ _ _ _ _ hset
          subst hj
          by_cases hn : name = n
          · subst hn
            rw [hf] at hspec
            have hva : va = va0 := Option.some.inj hspec
            have hvv : v0 = v := by simpa [updateInst] using hv
            rw [hva, ← hvv]
            exact hchk
          · simp only [updateInst] at hv
            rw [if_neg hn] at hv
            exact ih name va v hf hv
      | plain n v0 bb hnone =>
          by_cases hn : name = n
          · subst hn
            rw [hnone] at hf
            exact Option.noConfusion hf
          · simp only [updateInst] at hv
            rw [if_neg hn] at hv
            exact ih name va v hf hv

/-- Witness for C1: a record with field `first : NaturalNum`, after the
normally-returning assignment of `5`, holds a value passing the bound
validator. -/
theorem field_values_satisfy_bound_validator_wit :
    Validator.check .naturalNum (.vInt 5) = .ok () :=
  field_values_satisfy_bound_validator
    (fun n => if n = "first" then some .naturalNum else none)
    (updateInst emptyInstance "first" (.vInt 5))
    (Relation.ReflTransGen.single
      (FieldStep.checked "first" .naturalNum (.vInt 5) emptyInstance
        (updateInst emptyInstance "first" (.vInt 5)) (by decide) rfl))
    "first" .naturalNum (.vInt 5) (by decide) (by decide)

/-- C2: on a field assignment, if the bound validator's check succeeds the
value is stored; if the check raises, no store occurs and the instance
dictionary — in particular the field's previous binding, set or unset — is
left exactly as it was. -/
theorem descriptor_set_store_or_retain (chk : Val → Except PyErr Unit)
    (name : String) (inst : Instance) (v : Val) :
    (chk v = .ok () →
      Descriptor_set chk name inst v = (none, updateInst inst name v)) ∧
    (∀ e, chk v = .error e →
      Descriptor_set chk name inst v = (some e, inst)) := by
  constructor
  · intro h
    simp [Descriptor_set, h]
  · intro e h
    simp [Descriptor_set, h]

/-- Witness for C2: an `int`-typed field stores `5` and, on the failing
assignment of `"5"`, keeps the instance unchanged. -/
theorem descriptor_set_store_or_retain_wit :
    Descriptor_set (Validator.check (.typed "int" .intT)) "first"
        emptyInstance (.vInt 5)
      = (none, updateInst emptyInstance "first" (.vInt 5)) ∧
    Descriptor_set (Validator.check (.typed "int" .intT)) "first"
        emptyInstance (.vStr "5")
      = (some (.assertionError msgTypeExpected), emptyInstance) :=
  ⟨(descriptor_set_store_or_retain _ _ _ _).1 (by decide),
   (descriptor_set_store_or_retain _ _ _ _).2 _ (by decide)⟩

/-- C3: the Function validator rejects every truthy value whose runtime
type is one of the ten primitive value types (the check raises — a
callability failure, since primitive instances are not callable), and it
rejects every primitive constructor object itself with the explicit
`TypeError` (the constructors are callable but are members of
`_builtins`). -/
theorem function_check_rejects_truthy_primitives (v : Val) :
    (truthy v = true → typeOf v ∈ primitiveTypes →
      Function_check v = .error (.assertionError msgNotCallable)) ∧
    (∀ t, t ∈ primitiveTypes →
      Function_check (.vBuiltinType t) = .error (.typeError msgBuiltinCtor)) := by
  constructor
  · intro h1 h2
    cases v <;>
      simp_all [Function_check, Typed_check, Function_branch, typeOf,
        primitiveTypes, truthy, isBuiltinCtor, pyCallable]
  · intro t ht
    simp [Function_check, Typed_check, Function_branch, truthy,
      isBuiltinCtor, pyCallable, ht]

/-- Witness for C3: the integer `5` and the raw `list` constructor are
both rejected by the Function validator. -/
theorem function_check_rejects_truthy_primitives_wit :
    Function_check (.vInt 5) = .error (.assertionError msgNotCallable) ∧
    Function_check (.vBuiltinType .listT) = .error (.typeError msgBuiltinCtor) :=
  ⟨(function_check_rejects_truthy_primitives (.vInt 5)).1 (by decide) (by decide),
   (function_check_rejects_truthy_primitives (.vInt 5)).2 .listT (by decide)⟩

/-- C4: for every falsy value, the Function validator raises the explicit
`TypeError` when the value's runtime type is one of the primitive value
types, and passes silently — with no callability requirement — when it is
not. -/
theorem function_check_falsy_dichotomy (v : Val) (h : truthy v = false) :
    (typeOf v ∈ primitiveTypes →
      Function_check v = .error (.typeError msgEmptyBuiltin)) ∧
    (typeOf v ∉ primitiveTypes → Function_check v = .ok ()) := by
  constructor
  · intro hp
    simp [Function_check, Typed_check, Function_branch, h, hp, Descriptor_check]
  · intro hp
    simp [Function_check, Typed_check, Function_branch, h, hp, Descriptor_check]

/-- Witness for C4: the falsy primitive `0` is rejected with the explicit
`TypeError`; the falsy non-primitive `None` passes. -/
theorem function_check_falsy_dichotomy_wit :
    Function_check (.vInt 0) = .error (.typeError msgEmptyBuiltin) ∧
    Function_check .vNone = .ok () :=
  ⟨(function_check_falsy_dichotomy (.vInt 0) (by decide)).1 (by decide),
   (function_check_falsy_dichotomy .vNone (by decide)).2 (by decide)⟩

/-- Counterexample to C5 as stated: the claim requires `1.0` to be
rejected at every checking site, but at the field-assignment site the
`NaturalNum` descriptor's check resolves (through the MRO
`NaturalNum → int → Positive → Descriptor`) to `Positive.check` alone —
no `int` membership test — so assigning the float `1.0` to a
`NaturalNum` field raises nothing and stores the value. -/
theorem naturalNum_field_assignment_accepts_float :
    (Descriptor_set (Validator.check .naturalNum) "first"
        emptyInstance (.vFloat 1)).1 = none ∧
    (Descriptor_set (Validator.check .naturalNum) "first"
        emptyInstance (.vFloat 1)).2 "first" = some (.vFloat 1) :=
  ⟨by decide, by decide⟩

/-- C5 (amended): at decorated-call and construction sites (the `inv`
wrapper, with the mixin's base type not currently exposed, i.e. a fresh
`NaturalNum`), the composed validator accepts an integer exactly when it
is positive — so `1`, `5`, `100` pass and `0`, `-1` fail positivity —
while the non-integers `"1"` and `1.0` fail the base-type `isinstance`
check first (short-circuiting before the positivity predicate runs).  At
direct field-assignment sites only the `Positive` predicate is bound, so
`1`, `5`, `100` and also `1.0` are accepted, while `0` and `-1` fail
positivity and `"1"` raises from the unorderable comparison. -/
theorem naturalNum_checking_sites_amended :
    (∀ n : Int, checkParam false .mixinNat (.vInt n)
        = (if 0 < n then (.ok (), false)
           else (.error (.assertionError msgPositive), false))) ∧
    checkParam false .mixinNat (.vStr "1")
      = (.error (.assertionError msgMixinIsinstance), true) ∧
    checkParam false .mixinNat (.vFloat 1)
      = (.error (.assertionError msgMixinIsinstance), true) ∧
    (Descriptor_set (Validator.check .naturalNum) "f" emptyInstance (.vInt 1)).1
      = none ∧
    (Descriptor_set (Validator.check .naturalNum) "f" emptyInstance (.vInt 5)).1
      = none ∧
    (Descriptor_set (Validator.check .naturalNum) "f" emptyInstance (.vInt 100)).1
      = none ∧
    (Descriptor_set (Validator.check .naturalNum) "f" emptyInstance (.vInt 0)).1
      = some (.assertionError msgPositive) ∧
    (Descriptor_set (Validator.check .naturalNum) "f" emptyInstance (.vInt (-1))).1
      = some (.assertionError msgPositive) ∧
    (Descriptor_set (Validator.check .naturalNum) "f" emptyInstance (.vStr "1")).1
      = some (.typeError msgUnorderable) ∧
    (Descriptor_set (Validator.check .naturalNum) "f" emptyInstance (.vFloat 1)).1
      = none := by
  refine ⟨?_, by decide, by decide, by decide, by decide, by decide,
    by decide, by decide, by decide, by decide⟩
  intro n
  by_cases h : 0 < n <;>
    simp [checkParam, pyIsinstance, typeOf, Validator.check, Positive_check,
      pyGtZero, Descriptor_check, h]

/-- C6 is a code bug: the `delattr` of invis.py line 149 sits after the
`assert` of line 138, so when the mixin's base-type `isinstance` check
fails the exposure (`NaturalNum.type = int`) is not removed — the state
the code's own comment (lines 142-148) says must be cleaned up to keep the
mixin useful.  Concretely: a decorated call with argument `"1"` fails and
leaves the attribute set (second component `true`), after which a call
with `1.0` bypasses the base-type check entirely and is accepted, whereas
from a clean state `1.0` is rejected. -/
theorem mixin_type_attr_leak :
    checkParam false .mixinNat (.vStr "1")
      = (.error (.assertionError msgMixinIsinstance), true) ∧
    checkParam true .mixinNat (.vFloat 1) = (.ok (), true) ∧
    checkParam false .mixinNat (.vFloat 1)
      = (.error (.assertionError msgMixinIsinstance), true) :=
  ⟨by decide, by decide, by decide⟩

/-- C7: a call through the `inv` wrapper either aborts with the first
check failure — returning a result that does not depend on the wrapped
body at all, so none of its effects occur — or, when every annotated
argument passes, invokes the original callable on the original argument
values and returns its result unchanged. -/
theorem inv_wrapper_abort_or_pass (st : Bool) (args : List (Option Ann × Val)) :
    (∀ e st1, checkArgs st args = (.error e, st1) →
      ∀ f, inv_wrapper st args f = (.error e, st1)) ∧
    (∀ st1, checkArgs st args = (.ok (), st1) →
      ∀ f, inv_wrapper st args f = (.ok (f (args.map Prod.snd)), st1)) := by
  constructor
  · intro e st1 h f
    simp [inv_wrapper, h]
  · intro st1 h f
    simp [inv_wrapper, h]

/-- Witness for C7: `greet(name: int)` with argument `"x"` aborts before
the body for every body `f`; with argument `3` it returns the body's
result on the original argument. -/
theorem inv_wrapper_abort_or_pass_wit :
    inv_wrapper false [(some (.builtin .intT), .vStr "x")] (fun _ => .vNone)
      = (.error (.assertionError msgFallbackIsinstance), false) ∧
    inv_wrapper false [(some (.builtin .intT), .vInt 3)] (fun vs => .vTuple vs.length)
      = (.ok (.vTuple 1), false) :=
  ⟨(inv_wrapper_abort_or_pass false _).1 _ _ (by decide) _,
   (inv_wrapper_abort_or_pass false _).2 _ (by decide) _⟩

/-- C8: defining a contract-enforced type with an explicit `params`
mapping succeeds exactly when every key is one of
`{init, repr, eq, order, unsafe_hash, frozen}` and every value is a
boolean; any other entry makes the definition raise instead, before the
type is finalized (so before any instance can be constructed). -/
theorem params_validation_iff (ps : List (String × ParamVal)) :
    (finalizeWithParams ps = .ok "finalized" ↔
      ∀ kv ∈ ps, kv.1 ∈ defaultKeys ∧ kv.2.isBool = true) ∧
    ((∃ e, finalizeWithParams ps = .error e) ↔
      ¬ ∀ kv ∈ ps, kv.1 ∈ defaultKeys ∧ kv.2.isBool = true) := by
  have hv := validateParams_ok_iff ps
  cases h : validateParams ps with
  | ok u =>
      cases u
      have hall := hv.mp h
      have hfin : finalizeWithParams ps = .ok "finalized" := by
        simp [finalizeWithParams, h]
      constructor
      · exact ⟨fun _ => hall, fun _ => hfin⟩
      · constructor
        · rintro ⟨e, he⟩
          rw [hfin] at he
          exact Except.noConfusion he
        · intro hno
          exact absurd hall hno
  | error e =>
      have hbad : ¬ ∀ kv ∈ ps, kv.1 ∈ defaultKeys ∧ kv.2.isBool = true := by
        intro hall
        rw [hv.mpr hall] at h
        exact Except.noConfusion h
      have hfin : finalizeWithParams ps = .error e := by
        simp [finalizeWithParams, h]
      constructor
      · constructor
        · intro hok
          rw [hfin] at hok
          exact Except.noConfusion hok
        · intro hall
          exact absurd hall hbad
      · exact ⟨fun _ => hbad, fun _ => ⟨e, hfin⟩⟩

/-- C9: an interface-only type `I` (no fields of its own, under `Invis`)
subclassed by two unrelated concrete siblings `A` and `B` leaves each
sibling with exactly its own declared field list in its
`__dataclass_fields__` — neither inherits, duplicates nor observes the
other's slots. -/
theorem sibling_fields_independent (fa fb : List String) :
    lookupCls (siblingScenario fa fb) "A"
      = some ⟨["A", "I", "Invis"], fa, some fa⟩ ∧
    lookupCls (siblingScenario fa fb) "B"
      = some ⟨["B", "I", "Invis"], fb, some fb⟩ := by
  constructor
  · have h : lookupCls (siblingScenario fa fb) "A"
        = some ⟨["A", "I", "Invis"], fa, some (mergeFields [] fa)⟩ := rfl
    rw [h, mergeFields_nil]
  · have h : lookupCls (siblingScenario fa fb) "B"
        = some ⟨["B", "I", "Invis"], fb, some (mergeFields [] fb)⟩ := rfl
    rw [h, mergeFields_nil]

/-- C10: a finalized contract-enforced aggregate gets the no-op `check`
installed by `Base.__init_subclass__` (lines 249-253); at a decorated
call, a parameter annotated with such a class passes the wrapper's check
for every argument value of any runtime type — no `isinstance` test
against the class is performed — and the body runs normally. -/
theorem derived_annotation_accepts_all (st : Bool) (v : Val)
    (f : List Val → Val) :
    Validator.check .derivedNoop v = .ok () ∧
    checkParam st (.validatorCls .derivedNoop) v = (.ok (), st) ∧
    inv_wrapper st [(some (.validatorCls .derivedNoop), v)] f
      = (.ok (f [v]), st) :=
  ⟨rfl, rfl, rfl⟩
